import Mathlib

/-!
Shallow embedding of the two KServe inference scripts
`src/deployment/main.py` (variant 1) and `src/submission/deployment/main.py`
(variant 2) of the `zindi` repository.

Modelling conventions:
* Python exceptions are modelled with `Except String`; a raised exception is
  `Except.error msg` and a normal return is `Except.ok v`.
* The opaque third-party libraries (the sentencepiece tokenizer, the
  ctranslate2 translator, the kserve `generate_uuid` helper) are modelled as
  records of behaviour functions, quantified over in the theorems.  Their
  calls may raise, hence their `Except` result types.
* An attribute that may still be `None` (the fields set by `load`) is an
  `Option`; calling a method on `none` raises, like Python's
  `AttributeError` on `None`.
* Python list indexing `xs[0]` raises `IndexError` on an empty list; this is
  `pyIdx0`.
* `generate_uuid()` is an external nondeterministic call; the value it
  returns in a given call is passed to the embedded function as an explicit
  `uuid` argument.
-/

/-- A dynamically typed Python value, as far as this program needs one:
variant 2's `_translate` returns a `str` on success and a `list` of strings
on the exception path. -/
inductive Val where
  | str (s : String)
  | list (l : List String)
deriving DecidableEq, Repr

/-- Opaque sentencepiece processor: `encode` (per sentence, `out_type=str` /
`encode_as_pieces`) and `decode`.  Either call may raise. -/
structure SPProcessor where
  encode : String → Except String (List String)
  decode : List String → Except String String

/-- One result of an opaque `translate_batch` call: its ranked hypotheses,
each a list of token strings. -/
structure TransResult where
  hypotheses : List (List String)

/-- Variant 1's opaque `ctranslate2.Translator`: `translate_batch(tokens)`. -/
structure Translator1 where
  translate_batch : List (List String) → Except String (List TransResult)

/-- Variant 2's opaque `ctranslate2.Translator`:
`translate_batch(source_sents, target_prefix=...)`; the remaining keyword
arguments of the call (`batch_type="tokens"`, `max_batch_size=256`,
`beam_size=1`, `return_scores/attention/alternatives=False`) are constants
absorbed into the opaque behaviour. -/
structure Translator2 where
  translate_batch : List (List String) → List (List String) → Except String (List TransResult)

/-- Accessing a method of an attribute that may be `None`: raises
`AttributeError` like Python when the attribute is `none`. -/
def pyAttr (o : Option α) : Except String α :=
  match o with
  | none => Except.error "AttributeError"
  | some a => Except.ok a

/-- Python `xs[0]`: raises `IndexError` on an empty list. -/
def pyIdx0 (l : List α) : Except String α :=
  match l with
  | [] => Except.error "IndexError"
  | a :: _ => Except.ok a

/-- Python `str.lower()`, modelled character-wise. -/
def pyLower (s : String) : String := String.mk (s.data.map Char.toLower)

/-- Python `str.strip()` with no argument: remove leading and trailing
whitespace, modelled character-wise. -/
def pyStrip (s : String) : String :=
  String.mk (((s.data.dropWhile Char.isWhitespace).reverse.dropWhile
    Char.isWhitespace).reverse)

/-- One named input of a KServe `InferRequest` (`data` carries strings for
this model, datatype `STR`). -/
structure InferInput where
  data : List String
deriving DecidableEq, Repr

/-- KServe `InferRequest`: a list of named inputs. -/
structure InferRequest where
  inputs : List InferInput
deriving DecidableEq, Repr

/-- KServe `InferOutput` as constructed by `_create_response`. -/
structure InferOutput where
  name : String
  shape : List Nat
  datatype : String
  data : List Val
deriving DecidableEq, Repr

/-- KServe `InferResponse` as constructed by `_create_response`. -/
structure InferResponse where
  model_name : String
  infer_outputs : List InferOutput
  response_id : String
deriving DecidableEq, Repr

/-- Variant 1 `MODEL_DIR` constant. -/
def MODEL_DIR1 : String := "./saved_model/checkpoint-1700"

/-- Variant 2 `MODEL_DIR` constant. -/
def MODEL_DIR2 : String := "./saved_model/checkpoint-618"

/-- The mutable fields of variant 1's `TranslationModel` instance
(`src/deployment/main.py`). -/
structure ModelState1 where
  name : String
  ready : Bool
  model : Option Translator1
  sp_source_model : Option SPProcessor
  sp_target_model : Option SPProcessor

/-- The mutable fields of variant 2's `TranslationModel` instance
(`src/submission/deployment/main.py`); the `mpn` field is initialized to
`None` and never used, so it is omitted. -/
structure ModelState2 where
  name : String
  ready : Bool
  model : Option Translator2
  tokenizer : Option SPProcessor

/-- The filesystem/library behaviour seen by variant 1's `load`:
`spm.SentencePieceProcessor(model_file=...)` and
`ctranslate2.Translator(MODEL_DIR)`. -/
structure LoadEnv1 where
  spm_load : String → Except String SPProcessor
  translator_load : String → Except String Translator1

/-- The filesystem/library behaviour seen by variant 2's `load`; the device
keyword arguments of the `ctranslate2.Translator` constructor are constants
absorbed into the opaque behaviour. -/
structure LoadEnv2 where
  spm_load : String → Except String SPProcessor
  translator_load : String → Except String Translator2

/-- Variant 1 `load` (src/deployment/main.py lines 38-52): sequentially load
`source.spm`, `target.spm`, the translator; set `ready := true` on success;
on any exception leave the already-assigned fields and set `ready := false`. -/
def v1_load (env : LoadEnv1) (st : ModelState1) : ModelState1 :=
  match env.spm_load (MODEL_DIR1 ++ "/source.spm") with
  | Except.error _ => { st with ready := false }
  | Except.ok sps =>
    match env.spm_load (MODEL_DIR1 ++ "/target.spm") with
    | Except.error _ => { st with sp_source_model := some sps, ready := false }
    | Except.ok spt =>
      match env.translator_load MODEL_DIR1 with
      | Except.error _ =>
        { st with sp_source_model := some sps, sp_target_model := some spt, ready := false }
      | Except.ok m =>
        { st with sp_source_model := some sps, sp_target_model := some spt,
                  model := some m, ready := true }

/-- Variant 2 `load` (src/submission/deployment/main.py lines 37-55):
load `sentencepiece.bpe.model` then the translator. -/
def v2_load (env : LoadEnv2) (st : ModelState2) : ModelState2 :=
  match env.spm_load (MODEL_DIR2 ++ "/sentencepiece.bpe.model") with
  | Except.error _ => { st with ready := false }
  | Except.ok tok =>
    match env.translator_load MODEL_DIR2 with
    | Except.error _ => { st with tokenizer := some tok, ready := false }
    | Except.ok m => { st with tokenizer := some tok, model := some m, ready := true }

/-- Variant 1 `preprocess` (line 64): `payload.inputs[0].data[0].lower()`.
Note: no stripping here; `predict` strips. -/
def v1_preprocess (payload : InferRequest) : Except String String := do
  let i0 ← pyIdx0 payload.inputs
  let d0 ← pyIdx0 i0.data
  Except.ok (pyLower d0)

/-- Variant 2 `preprocess` (lines 67-68): `payload.inputs[0].data[0]` then
`text.strip()`.  Note: no lowercasing here. -/
def v2_preprocess (payload : InferRequest) : Except String String := do
  let i0 ← pyIdx0 payload.inputs
  let d0 ← pyIdx0 i0.data
  Except.ok (pyStrip d0)

/-- Variant 1, lines 85-87: `tokens[0].insert(0, "dyu")`,
`tokens[0].append("</s>")`, `tokens[0].append("fr")` — performed before the
`try` block, raising `IndexError` when `tokens` is empty. -/
def v1_buildTokens (tokens : List (List String)) : Except String (List (List String)) :=
  match tokens with
  | [] => Except.error "IndexError"
  | t0 :: rest => Except.ok ((("dyu" :: t0) ++ ["</s>", "fr"]) :: rest)

/-- Variant 1 `_translate` (lines 83-101).  Encoding and the token splicing
happen before the `try`; the `try` covers `translate_batch`, the
`hypotheses[0]` access and `decode`; afterwards line 100 unconditionally
overwrites `translations` with `["some thing"]`. -/
def v1_translate (st : ModelState1) (text : List String) : Except String (List String) := do
  let sp ← pyAttr st.sp_source_model
  let tokens ← text.mapM sp.encode
  let tokens ← v1_buildTokens tokens
  let attempt : Except String (List String) := do
    let m ← pyAttr st.model
    let results ← m.translate_batch tokens
    results.mapM (fun tr => do
      let h ← pyIdx0 tr.hypotheses
      let tgt ← pyAttr st.sp_target_model
      tgt.decode h)
  let translations :=
    match attempt with
    | Except.ok ts => ts
    | Except.error _ => [""]
  let translations := ["some thing"]
  Except.ok translations

/-- Variant 1 `_create_response` (lines 103-117); `uuid` is the value the
external `generate_uuid()` call returned in this invocation. -/
def v1_create_response (name uuid : String) (translation : String) : InferResponse :=
  { model_name := name,
    infer_outputs := [{ name := "output-0", shape := [1], datatype := "STR",
                        data := [Val.str translation] }],
    response_id := uuid }

/-- Variant 1 `predict` (lines 66-79): strip the (already preprocessed)
input, translate the singleton batch, take element 0, wrap it. -/
def v1_predict (st : ModelState1) (uuid : String) (data : String) : Except String InferResponse := do
  let source_sentences := [pyStrip data]
  let ts ← v1_translate st source_sentences
  let translation ← pyIdx0 ts
  Except.ok (v1_create_response st.name uuid translation)

/-- Variant 2, line 94: `target_prefix = [["fra_Latn"]] * len([text])`. -/
def v2_tgtPref (texts : List String) : List (List String) :=
  List.replicate texts.length ["fra_Latn"]

/-- Variant 2, line 95: the list comprehension
`[["dyu_Latn"] + tokenizer.encode_as_pieces(sent) + ["</s>"] for sent in [text]]`. -/
def v2_sourceSents (tok : SPProcessor) (texts : List String) : Except String (List (List String)) :=
  texts.mapM (fun sent => do
    let pieces ← tok.encode sent
    Except.ok (["dyu_Latn"] ++ pieces ++ ["</s>"]))

/-- Variant 2 `_translate` (lines 83-113).  Target-prefix construction and
encoding happen before the `try`; the `try` covers `translate_batch`, the
`[0]` accesses, the `fra_Latn` removal and `decode`; the exception path
returns a one-element list `["Error: " + str(e)]` while the success path
returns the decoded string. -/
def v2_translate (st : ModelState2) (text : String) : Except String Val := do
  let tp := v2_tgtPref [text]
  let tok ← pyAttr st.tokenizer
  let source_sents_subworded ← v2_sourceSents tok [text]
  let attempt : Except String Val := do
    let m ← pyAttr st.model
    let translations ← m.translate_batch source_sents_subworded tp
    let tr0 ← pyIdx0 translations
    let translation ← pyIdx0 tr0.hypotheses
    let translation := translation.erase "fra_Latn"
    let s ← tok.decode translation
    Except.ok (Val.str s)
  let trans :=
    match attempt with
    | Except.ok v => v
    | Except.error e => Val.list ["Error: " ++ e]
  Except.ok trans

/-- Variant 2 `_create_response` (lines 115-129). -/
def v2_create_response (name uuid : String) (translation : Val) : InferResponse :=
  { model_name := name,
    infer_outputs := [{ name := "output-0", shape := [1], datatype := "STR",
                        data := [translation] }],
    response_id := uuid }

/-- Variant 2 `predict` (lines 70-81). -/
def v2_predict (st : ModelState2) (uuid : String) (data : String) : Except String InferResponse := do
  let translation ← v2_translate st data
  Except.ok (v2_create_response st.name uuid translation)

/-! ### Concrete stub environments, for witnesses and counterexamples -/

/-- A stub tokenizer: encodes any sentence to `["▁hello"]`, decodes any token
list to `"Bonjour"`. -/
def stubSP : SPProcessor :=
  { encode := fun _ => Except.ok ["▁hello"],
    decode := fun _ => Except.ok "Bonjour" }

/-- A stub variant-1 translator: one result whose first hypothesis decodes
(via `stubSP`) to `"Bonjour"`. -/
def stubT1 : Translator1 :=
  { translate_batch := fun _ => Except.ok [{ hypotheses := [["▁Bonjour"]] }] }

/-- A stub variant-2 translator: one result whose first hypothesis carries
the forced target tag followed by tokens decoding to `"Bonjour"`. -/
def stubT2 : Translator2 :=
  { translate_batch := fun _ _ => Except.ok [{ hypotheses := [["fra_Latn", "▁Bonjour"]] }] }

/-- A fully loaded variant-1 model state over the stubs. -/
def stubSt1 : ModelState1 :=
  { name := "model", ready := true, model := some stubT1,
    sp_source_model := some stubSP, sp_target_model := some stubSP }

/-- A fully loaded variant-2 model state over the stubs. -/
def stubSt2 : ModelState2 :=
  { name := "model", ready := true, model := some stubT2, tokenizer := some stubSP }

/-- A tokenizer whose `encode` raises. -/
def badSP : SPProcessor :=
  { encode := fun _ => Except.error "boom",
    decode := fun _ => Except.ok "Bonjour" }

/-- Variant-1 state whose source tokenizer raises on `encode`. -/
def badSt1 : ModelState1 := { stubSt1 with sp_source_model := some badSP }

/-- A variant-1 translator whose `translate_batch` raises. -/
def raisingT1 : Translator1 := { translate_batch := fun _ => Except.error "boom" }

/-- A variant-2 translator whose `translate_batch` raises. -/
def raisingT2 : Translator2 := { translate_batch := fun _ _ => Except.error "boom" }

/-- Variant-1 state whose translator raises. -/
def raiseSt1 : ModelState1 := { stubSt1 with model := some raisingT1 }

/-- Variant-2 state whose translator raises. -/
def raiseSt2 : ModelState2 := { stubSt2 with model := some raisingT2 }

/-! ### Helper lemmas -/

theorem exBind_ok (a : α) (f : α → Except ε β) :
    (Except.ok a : Except ε α) >>= f = f a := rfl

theorem exBind_error (e : ε) (f : α → Except ε β) :
    (Except.error e : Except ε α) >>= f = Except.error e := rfl

theorem pyAttr_some (a : α) : pyAttr (some a) = Except.ok a := rfl

theorem pyIdx0_cons (a : α) (l : List α) : pyIdx0 (a :: l) = Except.ok a := rfl

theorem mapM_singleton (f : α → Except ε β) (a : α) :
    [a].mapM f = f a >>= fun b => Except.ok [b] := by
  cases hf : f a <;>
    simp [List.mapM, List.mapM.loop, hf, Bind.bind, Except.bind, Pure.pure, Except.pure]

/-- When the source tokenizer is present and encoding the singleton batch
succeeds, variant 1's `_translate` runs to completion and (because of the
unconditional overwrite on line 100) returns `["some thing"]`. -/
theorem v1_translate_ok_of_encode (st : ModelState1) (sp : SPProcessor)
    (t : String) (p : List String)
    (h1 : st.sp_source_model = some sp) (h2 : sp.encode t = Except.ok p) :
    v1_translate st [t] = Except.ok ["some thing"] := by
  simp only [v1_translate, h1, pyAttr_some, exBind_ok, mapM_singleton, h2, v1_buildTokens]

/-- When encoding succeeds, line 95's comprehension over the singleton batch
produces exactly the framed sentence. -/
theorem v2_sourceSents_singleton (tok : SPProcessor) (t : String) (q : List String)
    (h : tok.encode t = Except.ok q) :
    v2_sourceSents tok [t] = Except.ok [["dyu_Latn"] ++ q ++ ["</s>"]] := by
  simp only [v2_sourceSents, mapM_singleton, h, exBind_ok]

/-- When the tokenizer is present and encoding succeeds, variant 2's
`_translate` returns normally (the `try` swallows everything after the
encoding). -/
theorem v2_translate_isOk (st : ModelState2) (tok : SPProcessor)
    (t : String) (q : List String)
    (h1 : st.tokenizer = some tok) (h2 : tok.encode t = Except.ok q) :
    ∃ v, v2_translate st t = Except.ok v := by
  simp only [v2_translate, h1, pyAttr_some, exBind_ok,
    v2_sourceSents_singleton tok t q h2]
  exact ⟨_, rfl⟩

/-- When the `translate_batch` call inside variant 2's `try` raises `e`, the
`except` arm returns the one-element list `["Error: " ++ e]`. -/
theorem v2_translate_err (st : ModelState2) (tok : SPProcessor) (m : Translator2)
    (t : String) (q : List String) (e : String)
    (h1 : st.tokenizer = some tok) (h2 : tok.encode t = Except.ok q)
    (h3 : st.model = some m)
    (h4 : m.translate_batch [["dyu_Latn"] ++ q ++ ["</s>"]] (v2_tgtPref [t])
      = Except.error e) :
    v2_translate st t = Except.ok (Val.list ["Error: " ++ e]) := by
  simp only [v2_translate, h1, pyAttr_some, exBind_ok,
    v2_sourceSents_singleton tok t q h2, h3, h4, exBind_error]

/-- Every normal return of variant 1's `predict` is a `_create_response`
wrapping of some translation, tagged with the state's own name and this
call's uuid. -/
theorem v1_predict_ok_inv (st : ModelState1) (u d : String) (r : InferResponse)
    (h : v1_predict st u d = Except.ok r) :
    ∃ t, r = v1_create_response st.name u t := by
  simp only [v1_predict] at h
  rcases ht : v1_translate st [pyStrip d] with e | ts
  · rw [ht, exBind_error] at h; exact Except.noConfusion h
  · rw [ht, exBind_ok] at h
    rcases ts with _ | ⟨t0, rest⟩
    · simp only [pyIdx0, exBind_error] at h
      exact Except.noConfusion h
    · rw [pyIdx0_cons, exBind_ok] at h
      exact ⟨t0, (Except.ok.inj h).symm⟩

/-- Every normal return of variant 2's `predict` is a `_create_response`
wrapping of some translation value. -/
theorem v2_predict_ok_inv (st : ModelState2) (u d : String) (r : InferResponse)
    (h : v2_predict st u d = Except.ok r) :
    ∃ t, r = v2_create_response st.name u t := by
  simp only [v2_predict] at h
  rcases ht : v2_translate st d with e | v
  · rw [ht, exBind_error] at h; exact Except.noConfusion h
  · rw [ht, exBind_ok] at h
    exact ⟨v, (Except.ok.inj h).symm⟩

/-! ### Claim theorems -/

/-- C1: end-to-end pipeline on input `"Hello"` with stub tokenizer/translator
whose first result's first hypothesis decodes to `"Bonjour"`.  Variant 2
produces output data `["Bonjour"]` as the claim states, but variant 1
produces `["some thing"]`: the unconditional overwrite on line 100 of
`src/deployment/main.py` discards the decoded translation, so the claim
fails on the first variant (a leftover debug assignment contradicting the
surrounding code and comments). -/
theorem C1_pipeline_hello :
    (v1_preprocess { inputs := [{ data := ["Hello"] }] } >>= v1_predict stubSt1 "id-1")
      = Except.ok { model_name := "model",
                    infer_outputs := [{ name := "output-0", shape := [1], datatype := "STR",
                                        data := [Val.str "some thing"] }],
                    response_id := "id-1" }
    ∧ (v2_preprocess { inputs := [{ data := ["Hello"] }] } >>= v2_predict stubSt2 "id-2")
      = Except.ok { model_name := "model",
                    infer_outputs := [{ name := "output-0", shape := [1], datatype := "STR",
                                        data := [Val.str "Bonjour"] }],
                    response_id := "id-2" } := ⟨rfl, rfl⟩

/-- C2: in variant 1, whenever `_translate` returns at all it returns
`["some thing"]` — for every state, every input batch and every
translator/decoder behaviour, because line 100 unconditionally overwrites
both the decoded translations and the `[""]` error fallback. -/
theorem C2_translate_always_placeholder (st : ModelState1) (text : List String)
    (r : List String) (h : v1_translate st text = Except.ok r) :
    r = ["some thing"] := by
  simp only [v1_translate] at h
  rcases hsp : pyAttr st.sp_source_model with e | sp
  · rw [hsp, exBind_error] at h; exact Except.noConfusion h
  · rw [hsp, exBind_ok] at h
    rcases henc : text.mapM sp.encode with e | toks
    · rw [henc, exBind_error] at h; exact Except.noConfusion h
    · rw [henc, exBind_ok] at h
      rcases hb : v1_buildTokens toks with e | toks2
      · rw [hb, exBind_error] at h; exact Except.noConfusion h
      · rw [hb, exBind_ok] at h
        exact (Except.ok.inj h).symm

/-- C2 witness: the hypothesis is satisfiable — on the stub state and a
concrete input, `_translate` indeed returns, and the theorem applies. -/
theorem C2_witness : (["some thing"] : List String) = ["some thing"] :=
  C2_translate_always_placeholder stubSt1 ["hello"] ["some thing"] rfl

/-- C3 counterexample: tokenization/encoding happens before the `try` block,
so an exception raised while encoding the source text propagates out of
`predict` — contradicting the claim that no exception raised during the
translate step (including tokenization/encoding) escapes `predict`. -/
theorem C3_encode_error_escapes_predict :
    v1_predict badSt1 "id-3" "Hello" = Except.error "boom" := rfl

/-- C3 amended: only exceptions raised inside the `try` (the
batch-translate/decode part) are caught; when encoding the source text
succeeds, `predict` returns normally in both variants, whatever the
translator and decoder do. -/
theorem C3_predict_ok_of_encode_ok
    (st1 : ModelState1) (sp : SPProcessor) (u1 d1 : String) (p : List String)
    (h1 : st1.sp_source_model = some sp) (h2 : sp.encode (pyStrip d1) = Except.ok p)
    (st2 : ModelState2) (tok : SPProcessor) (u2 d2 : String) (q : List String)
    (h3 : st2.tokenizer = some tok) (h4 : tok.encode d2 = Except.ok q) :
    (∃ r, v1_predict st1 u1 d1 = Except.ok r)
    ∧ (∃ r, v2_predict st2 u2 d2 = Except.ok r) := by
  constructor
  · refine ⟨v1_create_response st1.name u1 "some thing", ?_⟩
    simp only [v1_predict, v1_translate_ok_of_encode st1 sp (pyStrip d1) p h1 h2,
      exBind_ok, pyIdx0_cons]
  · obtain ⟨v, hv⟩ := v2_translate_isOk st2 tok d2 q h3 h4
    exact ⟨v2_create_response st2.name u2 v, by
      simp only [v2_predict, hv, exBind_ok]⟩

/-- C3 witness: the amended theorem applies at the stub environment. -/
theorem C3_witness :
    (∃ r, v1_predict stubSt1 "u1" "Hello" = Except.ok r)
    ∧ (∃ r, v2_predict stubSt2 "u2" "Hello" = Except.ok r) :=
  C3_predict_ok_of_encode_ok stubSt1 stubSP "u1" "Hello" ["▁hello"] rfl rfl
    stubSt2 stubSP "u2" "Hello" ["▁hello"] rfl rfl

/-- C4 counterexample: on an exception inside variant 2's `try`, `_translate`
returns the one-element list `["Error: boom"]`, not the bare string
`"Error: boom"` the claim describes (on success it returns a bare string, so
the two branches do not even have the same Python type). -/
theorem C4_v2_error_value_is_list :
    v2_translate raiseSt2 "Hello" = Except.ok (Val.list ["Error: boom"])
    ∧ Val.list ["Error: boom"] ≠ Val.str "Error: boom" := ⟨rfl, by decide⟩

/-- C4 amended: if the batch-translate/decode call inside `_translate`
raises, `_translate` swallows the exception and returns a substitute:
variant 1 returns the list `["some thing"]` carrying the hard-coded
placeholder string, and variant 2 returns the one-element list
`["Error: " ++ message]` (a list, not the bare string it returns on
success). -/
theorem C4_exception_substitute
    (st1 : ModelState1) (sp : SPProcessor) (m1 : Translator1) (t1 : String)
    (p : List String) (e1 : String)
    (h1 : st1.sp_source_model = some sp) (h2 : sp.encode t1 = Except.ok p)
    (h3 : st1.model = some m1)
    (h4 : m1.translate_batch [("dyu" :: p) ++ ["</s>", "fr"]] = Except.error e1)
    (st2 : ModelState2) (tok : SPProcessor) (m2 : Translator2) (t2 : String)
    (q : List String) (e2 : String)
    (h5 : st2.tokenizer = some tok) (h6 : tok.encode t2 = Except.ok q)
    (h7 : st2.model = some m2)
    (h8 : m2.translate_batch [["dyu_Latn"] ++ q ++ ["</s>"]] (v2_tgtPref [t2])
      = Except.error e2) :
    v1_translate st1 [t1] = Except.ok ["some thing"]
    ∧ v2_translate st2 t2 = Except.ok (Val.list ["Error: " ++ e2]) :=
  ⟨v1_translate_ok_of_encode st1 sp t1 p h1 h2,
   v2_translate_err st2 tok m2 t2 q e2 h5 h6 h7 h8⟩

/-- C4 witness: the amended theorem applies at concrete raising stubs. -/
theorem C4_witness :
    v1_translate raiseSt1 ["hello"] = Except.ok ["some thing"]
    ∧ v2_translate raiseSt2 "hello" = Except.ok (Val.list ["Error: boom"]) :=
  C4_exception_substitute raiseSt1 stubSP raisingT1 "hello" ["▁hello"] "boom"
    rfl rfl rfl rfl
    raiseSt2 stubSP raisingT2 "hello" ["▁hello"] "boom"
    rfl rfl rfl rfl

/-- C5: `load` has exactly two outcomes — `ready = true` exactly when every
artifact load succeeds (both sentencepiece files and the translator in
variant 1; the sentencepiece file and the translator in variant 2), and
`ready = false` whenever any step raises, leaving the instance non-serving;
no retry occurs. -/
theorem C5_load_outcomes (env1 : LoadEnv1) (st1 : ModelState1)
    (env2 : LoadEnv2) (st2 : ModelState2) :
    ((v1_load env1 st1).ready = true ↔
      ((∃ s, env1.spm_load (MODEL_DIR1 ++ "/source.spm") = Except.ok s)
        ∧ (∃ t, env1.spm_load (MODEL_DIR1 ++ "/target.spm") = Except.ok t)
        ∧ (∃ m, env1.translator_load MODEL_DIR1 = Except.ok m)))
    ∧ ((v2_load env2 st2).ready = true ↔
      ((∃ s, env2.spm_load (MODEL_DIR2 ++ "/sentencepiece.bpe.model") = Except.ok s)
        ∧ (∃ m, env2.translator_load MODEL_DIR2 = Except.ok m))) := by
  constructor
  · unfold v1_load
    rcases h1 : env1.spm_load (MODEL_DIR1 ++ "/source.spm") with e | s
    · simp [h1]
    · rcases h2 : env1.spm_load (MODEL_DIR1 ++ "/target.spm") with e | t
      · simp [h1, h2]
      · rcases h3 : env1.translator_load MODEL_DIR1 with e | m
        · simp [h1, h2, h3]
        · simp [h1, h2, h3]
  · unfold v2_load
    rcases h1 : env2.spm_load (MODEL_DIR2 ++ "/sentencepiece.bpe.model") with e | s
    · simp [h1]
    · rcases h2 : env2.translator_load MODEL_DIR2 with e | m
      · simp [h1, h2]
      · simp [h1, h2]

/-- C6: tokenization framing.  In variant 1, encoding the singleton batch
and the in-place splicing of lines 85-87 yield exactly
`[["dyu"] ++ pieces ++ ["</s>", "fr"]]`, the value `_translate` passes to
`translate_batch`.  In variant 2, the comprehension of line 95 yields
exactly `[["dyu_Latn"] ++ pieces ++ ["</s>"]]` and the target-prefix list of
line 94 is `[["fra_Latn"]]`, of length 1 equal to the singleton batch size;
`_translate` passes both to `translate_batch`. -/
theorem C6_token_framing
    (sp : SPProcessor) (text1 : String) (p : List String)
    (h1 : sp.encode text1 = Except.ok p)
    (tok : SPProcessor) (text2 : String) (q : List String)
    (h2 : tok.encode text2 = Except.ok q) :
    ([text1].mapM sp.encode = Except.ok [p]
      ∧ v1_buildTokens [p] = Except.ok [["dyu"] ++ p ++ ["</s>", "fr"]])
    ∧ (v2_sourceSents tok [text2] = Except.ok [["dyu_Latn"] ++ q ++ ["</s>"]]
      ∧ v2_tgtPref [text2] = [["fra_Latn"]]
      ∧ (v2_tgtPref [text2]).length = [text2].length) := by
  refine ⟨⟨?_, rfl⟩, v2_sourceSents_singleton tok text2 q h2, rfl, rfl⟩
  rw [mapM_singleton, h1, exBind_ok]

/-- C6 witness: the framing theorem applies at the stub tokenizer. -/
theorem C6_witness :
    (["hi"].mapM stubSP.encode = Except.ok [["▁hello"]]
      ∧ v1_buildTokens [["▁hello"]]
        = Except.ok [["dyu"] ++ ["▁hello"] ++ ["</s>", "fr"]])
    ∧ (v2_sourceSents stubSP ["hi"]
        = Except.ok [["dyu_Latn"] ++ ["▁hello"] ++ ["</s>"]]
      ∧ v2_tgtPref ["hi"] = [["fra_Latn"]]
      ∧ (v2_tgtPref ["hi"]).length = (["hi"] : List String).length) :=
  C6_token_framing stubSP "hi" ["▁hello"] rfl stubSP "hi" ["▁hello"] rfl

/-- C7: every response `predict` returns (in either variant) has exactly one
output, with datatype `"STR"`, shape `[1]`, a one-element data list, and is
tagged with the serving model's name. -/
theorem C7_response_shape
    (st1 : ModelState1) (u1 d1 : String) (r1 : InferResponse)
    (h1 : v1_predict st1 u1 d1 = Except.ok r1)
    (st2 : ModelState2) (u2 d2 : String) (r2 : InferResponse)
    (h2 : v2_predict st2 u2 d2 = Except.ok r2) :
    ((∃ o, r1.infer_outputs = [o] ∧ o.datatype = "STR" ∧ o.shape = [1]
        ∧ o.data.length = 1)
      ∧ r1.model_name = st1.name)
    ∧ ((∃ o, r2.infer_outputs = [o] ∧ o.datatype = "STR" ∧ o.shape = [1]
        ∧ o.data.length = 1)
      ∧ r2.model_name = st2.name) := by
  obtain ⟨t1, ht1⟩ := v1_predict_ok_inv st1 u1 d1 r1 h1
  obtain ⟨t2, ht2⟩ := v2_predict_ok_inv st2 u2 d2 r2 h2
  subst ht1; subst ht2
  exact ⟨⟨⟨_, rfl, rfl, rfl, rfl⟩, rfl⟩, ⟨_, rfl, rfl, rfl, rfl⟩, rfl⟩

/-- C7 witness: the shape theorem applies at the stub states. -/
theorem C7_witness :
    ((∃ o, (v1_create_response "model" "u1" "some thing").infer_outputs = [o]
        ∧ o.datatype = "STR" ∧ o.shape = [1] ∧ o.data.length = 1)
      ∧ (v1_create_response "model" "u1" "some thing").model_name = stubSt1.name)
    ∧ ((∃ o, (v2_create_response "model" "u2" (Val.str "Bonjour")).infer_outputs = [o]
        ∧ o.datatype = "STR" ∧ o.shape = [1] ∧ o.data.length = 1)
      ∧ (v2_create_response "model" "u2" (Val.str "Bonjour")).model_name = stubSt2.name) :=
  C7_response_shape stubSt1 "u1" "hello" (v1_create_response "model" "u1" "some thing") rfl
    stubSt2 "u2" "hello" (v2_create_response "model" "u2" (Val.str "Bonjour")) rfl

/-- C8 counterexample: variant 1's `preprocess` only lowercases — it does
not strip.  On the payload whose first string is `" A "`, it returns
`" a "`, not the stripped-and-lowercased `"a"` the claim describes. -/
theorem C8_v1_preprocess_not_stripped :
    v1_preprocess { inputs := [{ data := [" A "] }] } = Except.ok " a "
    ∧ (" a " : String) ≠ pyLower (pyStrip " A ") := ⟨rfl, by decide⟩

/-- C8 amended: `preprocess` returns the first string field of the payload's
first input; variant 1 lowercases it without stripping (stripping happens
later, inside `predict`), variant 2 strips it without lowercasing.  Being a
pure function of the payload, it leaves the payload unchanged. -/
theorem C8_preprocess_behavior (s : String) (ds : List String)
    (rest : List InferInput) :
    v1_preprocess { inputs := { data := s :: ds } :: rest } = Except.ok (pyLower s)
    ∧ v2_preprocess { inputs := { data := s :: ds } :: rest } = Except.ok (pyStrip s) :=
  ⟨rfl, rfl⟩

/-- C9 counterexample: no guard ties `predict` to the `ready` flag — on a
state whose `ready` flag is false, `predict` still executes and returns a
normal serving response. -/
theorem C9_predict_runs_when_not_ready :
    ({ stubSt1 with ready := false } : ModelState1).ready = false
    ∧ v1_predict { stubSt1 with ready := false } "id-9" "Hello"
        = Except.ok (v1_create_response "model" "id-9" "some thing") := ⟨rfl, rfl⟩

/-- C9 amended: neither variant's `predict` reads the `ready` flag; its
behaviour is identical whatever the flag's value, so the `ready` invariant
is not enforced by any guard (the design gap the spec notes). -/
theorem C9_predict_ignores_ready (st1 : ModelState1) (b1 : Bool) (u1 d1 : String)
    (st2 : ModelState2) (b2 : Bool) (u2 d2 : String) :
    v1_predict { st1 with ready := b1 } u1 d1 = v1_predict st1 u1 d1
    ∧ v2_predict { st2 with ready := b2 } u2 d2 = v2_predict st2 u2 d2 :=
  ⟨rfl, rfl⟩

/-- C10: `_create_response` stamps each response with exactly the identifier
the external `generate_uuid()` call produced in that invocation, so two
calls whose freshly generated identifiers differ yield responses with
distinct response ids, in both variants. -/
theorem C10_response_ids_distinct (u1 u2 : String) (h : u1 ≠ u2)
    (n1 n2 : String) (s1 s2 : String) (t1 t2 : Val) :
    (v1_create_response n1 u1 s1).response_id ≠ (v1_create_response n2 u2 s2).response_id
    ∧ (v2_create_response n1 u1 t1).response_id ≠ (v2_create_response n2 u2 t2).response_id :=
  ⟨h, h⟩

/-- C10 witness: the theorem applies at two concrete distinct uuids. -/
theorem C10_witness :
    (v1_create_response "model" "id-a" "x").response_id
        ≠ (v1_create_response "model" "id-b" "y").response_id
    ∧ (v2_create_response "model" "id-a" (Val.str "x")).response_id
        ≠ (v2_create_response "model" "id-b" (Val.str "y")).response_id :=
  C10_response_ids_distinct "id-a" "id-b" (by decide) "model" "model" "x" "y"
    (Val.str "x") (Val.str "y")
